import Mathlib

/-!
Verification of the threshold-evaluation core of `system_monitor.py`
(class `ResourceMonitor`): the data model of a Reading, the threshold
configuration, the evaluator `analyze_bottlenecks`, the rate derivation in
`collect_data`, the bounded history buffer maintained by `monitor_loop`,
and the per-reading analysis list built by `generate_report`.

Numbers that Python holds as floats (percentages, byte counters, rates)
are embedded as exact rationals; the numeric formatting such as `%.1f`
inside human-readable message strings is abstracted to exact rational
rendering, and quote characters inside the fixed suggestion strings are
dropped.  No theorem inspects those strings beyond the `type` and
`severity` fields, which are embedded verbatim.

One genuine error path of the evaluator is modeled explicitly:
`get_memory_stats` always stores the cached key, holding `None` on
platforms where `psutil` has no `mem.cached`, so in the memory branch the
details expression `mem.get('cached', 0) / (1024**3)` finds the key
present, receives `None`, and raises a `TypeError` — the `0` default is
dead.  The evaluator is therefore embedded as an `Except`-valued
function, and the monitoring loop and report generation propagate that
failure exactly as the Python `try` blocks do: the loop has already
appended the Reading and skips the trim; the report loop aborts with
nothing produced.
-/

namespace SystemMonitor

/-- CPU portion of a Reading, from `get_cpu_stats` (the fields that
`analyze_bottlenecks` reads: `total` and `per_core`). -/
structure CpuStats where
  total : ℚ
  per_core : List ℚ
deriving DecidableEq

/-- RAM portion of a Reading, from `get_memory_stats`.  `cached` is `none`
on platforms where `psutil` does not expose it: the key is always written,
holding the Python `None` in that case. -/
structure RamStats where
  total : ℚ
  available : ℚ
  used : ℚ
  free : ℚ
  percent : ℚ
  cached : Option ℚ
deriving DecidableEq

/-- Swap portion of a Reading, from `get_memory_stats`. -/
structure SwapStats where
  total : ℚ
  used : ℚ
  free : ℚ
  percent : ℚ
deriving DecidableEq

/-- Memory portion of a Reading: the `ram` and `swap` sub-dicts. -/
structure MemoryStats where
  ram : RamStats
  swap : SwapStats
deriving DecidableEq

/-- One disk-partition entry, from `get_disk_stats`. -/
structure PartitionStats where
  device : String
  mount : String
  fstype : String
  total : ℚ
  used : ℚ
  free : ℚ
  percent : ℚ
deriving DecidableEq

/-- Disk portion of a Reading (the `partitions` list that
`analyze_bottlenecks` iterates). -/
structure DiskStats where
  partitions : List PartitionStats
deriving DecidableEq

/-- One network-interface entry, from `get_network_stats`.  `speed` is the
link speed in Mbps, `none` when `psutil` has no interface stats for the
nic.  `rates` is `none` in a fresh snapshot; `collect_data` fills it with
the pair `(bytes_sent_rate, bytes_recv_rate)` when a previous Reading with
this nic exists and the elapsed time is positive (the two rate keys are
always set together in the source). -/
structure NetIfStats where
  bytes_sent : ℚ
  bytes_recv : ℚ
  speed : Option ℚ
  rates : Option (ℚ × ℚ)
deriving DecidableEq

/-- Network portion of a Reading: the interface dict, as an
insertion-ordered association list. -/
structure NetworkStats where
  interfaces : List (String × NetIfStats)
deriving DecidableEq

/-- One timestamped snapshot of all monitored subsystems, as assembled by
`collect_data`.  The ISO timestamp string is embedded as the instant it
denotes, in seconds (only differences of timestamps are ever used). -/
structure Reading where
  timestamp : ℚ
  cpu : CpuStats
  memory : MemoryStats
  disk : DiskStats
  network : NetworkStats
deriving DecidableEq

/-- The threshold mapping `self.thresholds` with its five fixed keys. -/
structure Thresholds where
  cpu : ℚ
  memory : ℚ
  disk : ℚ
  swap : ℚ
  network : ℚ
deriving DecidableEq

/-- The defaults installed by `ResourceMonitor.__init__`. -/
def defaultThresholds : Thresholds :=
  { cpu := 80, memory := 75, disk := 85, swap := 50, network := 90 }

/-- Embedding of `ResourceMonitor.set_thresholds(**kwargs)`: for each
keyword pair, the value is stored only when the key is one of the five
existing keys of `self.thresholds`; any other key is skipped by the
`if key in self.thresholds` guard, and the method has no error path. -/
def set_thresholds (t : Thresholds) (kwargs : List (String × ℚ)) : Thresholds :=
  kwargs.foldl
    (fun acc kv =>
      if kv.1 = "cpu" then { acc with cpu := kv.2 }
      else if kv.1 = "memory" then { acc with memory := kv.2 }
      else if kv.1 = "disk" then { acc with disk := kv.2 }
      else if kv.1 = "swap" then { acc with swap := kv.2 }
      else if kv.1 = "network" then { acc with network := kv.2 }
      else acc)
    t

/-- One detected bottleneck, as built by `analyze_bottlenecks`. -/
structure Issue where
  type : String
  severity : String
  message : String
  details : String
  suggestion : String
deriving DecidableEq

/-- Decidable equality of fallible results, so that concrete evaluations
of the embedded fallible functions can be checked by `decide`. -/
instance {e a : Type} [DecidableEq e] [DecidableEq a] : DecidableEq (Except e a)
  | Except.error x, Except.error y =>
      if h : x = y then Decidable.isTrue (congrArg Except.error h)
      else Decidable.isFalse (fun hh => h (Except.error.inj hh))
  | Except.error _, Except.ok _ => Decidable.isFalse (fun hh => Except.noConfusion hh)
  | Except.ok _, Except.error _ => Decidable.isFalse (fun hh => Except.noConfusion hh)
  | Except.ok x, Except.ok y =>
      if h : x = y then Decidable.isTrue (congrArg Except.ok h)
      else Decidable.isFalse (fun hh => h (Except.ok.inj hh))

/-- Python truthiness of `stats.get('speed')`: `None` and `0` are falsy. -/
def speedTruthy : Option ℚ → Bool
  | none => false
  | some s => s != 0

/-- The network utilization percentage computed in the network branch of
`analyze_bottlenecks`: `speed` Mbps is converted to bytes/s as
`speed * 1024 * 1024 / 8`, and utilization is
`max(sent_rate, recv_rate) / max_bytes_per_sec * 100`. -/
def netUtilization (stats : NetIfStats) (sentRate recvRate : ℚ) : ℚ :=
  let max_bytes_per_sec := stats.speed.getD 0 * 1024 * 1024 / 8
  let current_rate := max sentRate recvRate
  current_rate / max_bytes_per_sec * 100

/-- The disk branch of `analyze_bottlenecks`, for one partition entry. -/
def diskIssueFor (t : Thresholds) (p : PartitionStats) : Option Issue :=
  if p.percent > t.disk then
    some
      { type := "Disk"
        severity := if p.percent > 95 then "Critical" else "High"
        message := "Disk space low: " ++ p.mount ++ " (" ++ toString p.percent ++ "%)"
        details := "Used: " ++ toString (p.used / 1024 ^ 3) ++ "GB of " ++
          toString (p.total / 1024 ^ 3) ++ "GB\nFilesystem: " ++ p.fstype
        suggestion := "1. Clean up disk space on " ++ p.mount ++
          "\n2. Use du -sh " ++ p.mount ++ "/* | sort -rh to find large files" ++
          "\n3. Consider adding storage or enabling compression" }
  else none

/-- The network branch of `analyze_bottlenecks`, for one interface entry:
the guard is `bytes_sent_rate in stats and stats.get('speed')` (rates
present, and speed truthy), then an Issue is emitted when the utilization
exceeds the network threshold. -/
def netIssueFor (t : Thresholds) (nic : String) (stats : NetIfStats) : Option Issue :=
  match stats.rates with
  | none => none
  | some r =>
    if speedTruthy stats.speed then
      let utilization := netUtilization stats r.1 r.2
      if utilization > t.network then
        some
          { type := "Network"
            severity := if utilization > 95 then "Critical" else "High"
            message := "High network utilization on " ++ nic ++ ": " ++
              toString utilization ++ "%"
            details := "Send rate: " ++ toString (r.1 / 1024 / 1024) ++
              " MB/s\nReceive rate: " ++ toString (r.2 / 1024 / 1024) ++ " MB/s"
            suggestion := "1. Identify bandwidth-heavy processes with nethogs" ++
              "\n2. Check for network bottlenecks" ++
              "\n3. Consider traffic shaping or upgrading network capacity" }
      else none
    else none

/-- The CPU branch of `analyze_bottlenecks`: zero or one Issue. -/
def cpuIssuesFor (t : Thresholds) (data : Reading) : List Issue :=
  if data.cpu.total > t.cpu then
    [{ type := "CPU"
       severity := if data.cpu.total > 95 then "Critical" else "High"
       message := "High CPU usage: " ++ toString data.cpu.total ++ "%"
       details := "Core loads: " ++
         String.intercalate ", " (data.cpu.per_core.map (fun l => toString l ++ "%"))
       suggestion := "1. Check CPU-intensive processes with the top command" ++
         "\n2. Consider process optimization or load balancing" ++
         "\n3. Monitor system temperature and throttling" }]
  else []

/-- The exception raised by the memory branch when the cached value is
the Python `None`: dividing `None` by an int in the details expression. -/
def cachedNoneError : String :=
  "TypeError: unsupported operand type for /: NoneType and int"

/-- The memory branch of `analyze_bottlenecks`.  When the RAM guard
fires, the details string evaluates `mem.get('cached', 0) / (1024**3)`;
the cached key is always present (possibly holding `None`), so the `0`
default never applies and a `None` value raises a `TypeError` instead of
producing an Issue. -/
def memIssueFor (t : Thresholds) (data : Reading) : Except String (List Issue) :=
  if data.memory.ram.percent > t.memory then
    match data.memory.ram.cached with
    | none => Except.error cachedNoneError
    | some c =>
        Except.ok
          [{ type := "Memory"
             severity := if data.memory.ram.percent > 90 then "Critical" else "High"
             message := "High RAM usage: " ++ toString data.memory.ram.percent ++ "%"
             details := "Available: " ++ toString (data.memory.ram.available / 1024 ^ 3) ++
               " GB\nUsed: " ++ toString (data.memory.ram.used / 1024 ^ 3) ++
               " GB\nCached: " ++ toString (c / 1024 ^ 3) ++ " GB"
             suggestion := "1. Identify memory-hogging processes with ps aux --sort=-%mem" ++
               "\n2. Check for memory leaks" ++
               "\n3. Consider increasing RAM or enabling swap" }]
  else Except.ok []

/-- Embedding of `ResourceMonitor.analyze_bottlenecks(data)`: CPU, then
RAM, then one check per disk partition, then one check per network
interface, each appended to `issues` in that order.  No branch reads
`swap`.  A `TypeError` in the memory branch aborts the whole call, so
the partially built issue list is discarded and nothing is emitted. -/
def analyze_bottlenecks (t : Thresholds) (data : Reading) : Except String (List Issue) :=
  match memIssueFor t data with
  | Except.error e => Except.error e
  | Except.ok memIssues =>
      Except.ok (cpuIssuesFor t data ++
        (memIssues ++
          (data.disk.partitions.filterMap (diskIssueFor t) ++
           data.network.interfaces.filterMap (fun p => netIssueFor t p.1 p.2))))

/-- The rate-derivation pass inside `collect_data`: for every interface of
the fresh snapshot that also appears in the previous Reading, set
`bytes_sent_rate` and `bytes_recv_rate` to the counter delta divided by
the elapsed interval. -/
def computeRates (last : Reading) (interval : ℚ)
    (ifaces : List (String × NetIfStats)) : List (String × NetIfStats) :=
  ifaces.map (fun p =>
    match last.network.interfaces.lookup p.1 with
    | some previous =>
        (p.1,
          { p.2 with
            rates :=
              some ((p.2.bytes_sent - previous.bytes_sent) / interval,
                    (p.2.bytes_recv - previous.bytes_recv) / interval) })
    | none => p)

/-- Embedding of `ResourceMonitor.collect_data`, given the fresh snapshot
`fresh` of all subsystem stats: when the buffer is non-empty, the elapsed
seconds since the last buffered Reading are computed, and when positive,
network rates are derived for interfaces present in both Readings. -/
def collect_data (buffer : List Reading) (fresh : Reading) : Reading :=
  match buffer.getLast? with
  | none => fresh
  | some last =>
      let interval := fresh.timestamp - last.timestamp
      if interval > 0 then
        { fresh with network :=
            { interfaces := computeRates last interval fresh.network.interfaces } }
      else fresh

/-- Embedding of `collect_data` with each subsystem getter represented as
a fallible result: the body runs inside a single `try` whose handler logs
and re-raises, so a failure of any one getter makes the whole call raise
and no Reading is produced. -/
def collect_dataE (buffer : List Reading) (timestamp : ℚ)
    (cpuRes : Except String CpuStats) (memRes : Except String MemoryStats)
    (diskRes : Except String DiskStats) (netRes : Except String NetworkStats) :
    Except String Reading :=
  match cpuRes with
  | Except.error e => Except.error e
  | Except.ok c =>
    match memRes with
    | Except.error e => Except.error e
    | Except.ok m =>
      match diskRes with
      | Except.error e => Except.error e
      | Except.ok d =>
        match netRes with
        | Except.error e => Except.error e
        | Except.ok n =>
          Except.ok (collect_data buffer
            { timestamp := timestamp, cpu := c, memory := m, disk := d, network := n })

/-- The constant `max_buffer_size` in `monitor_loop` (one hour of data at
5-second intervals). -/
def max_buffer_size : Nat := 720

/-- The buffer-maintenance step of `monitor_loop`: when the buffer length
exceeds the maximum, the buffer is replaced by its last `n` entries. -/
def trimBuffer (n : Nat) (buf : List Reading) : List Reading :=
  if buf.length > n then buf.drop (buf.length - n) else buf

/-- Buffer effect of one fully successful `monitor_loop` iteration:
append the new Reading, then trim to the maximum size. -/
def appendReading (buf : List Reading) (r : Reading) : List Reading :=
  trimBuffer max_buffer_size (buf ++ [r])

/-- The history buffer after a sequence of fully successful
`monitor_loop` iterations starting from the empty buffer. -/
def runBuffer (rs : List Reading) : List Reading :=
  rs.foldl appendReading []

/-- One `monitor_loop` iteration.  If `collect_data` raises, the handler
catches it before any append: buffer unchanged, no issues.  On a
successful collection the Reading is appended first; if
`analyze_bottlenecks` then raises, the handler catches it after the
append but before the trim, so the iteration ends with the appended,
untrimmed buffer and no issues.  Only a fully successful iteration
reaches the trim. -/
def monitor_step (t : Thresholds) (buf : List Reading) (timestamp : ℚ)
    (cpuRes : Except String CpuStats) (memRes : Except String MemoryStats)
    (diskRes : Except String DiskStats) (netRes : Except String NetworkStats) :
    List Reading × List Issue :=
  match collect_dataE buf timestamp cpuRes memRes diskRes netRes with
  | Except.error _ => (buf, [])
  | Except.ok data =>
      let buf1 := buf ++ [data]
      match analyze_bottlenecks t data with
      | Except.error _ => (buf1, [])
      | Except.ok issues => (trimBuffer max_buffer_size buf1, issues)

/-- The `analysis` list of `ResourceMonitor.generate_report`: one
`(timestamp, issues)` entry per buffered Reading, in buffer order, with
the issues recomputed by `analyze_bottlenecks`.  The first Reading whose
evaluation raises aborts the loop, and no report is written. -/
def generate_report_analysis (t : Thresholds) (buffer : List Reading) :
    Except String (List (ℚ × List Issue)) :=
  match buffer with
  | [] => Except.ok []
  | data :: rest =>
      match analyze_bottlenecks t data with
      | Except.error e => Except.error e
      | Except.ok issues =>
          match generate_report_analysis t rest with
          | Except.error e => Except.error e
          | Except.ok tail => Except.ok ((data.timestamp, issues) :: tail)

/-! Concrete inputs used to evaluate the embedded code at specific
points. -/

/-- A CPU snapshot with zero load. -/
def zeroCpu : CpuStats := { total := 0, per_core := [] }

/-- A RAM snapshot with zero usage. -/
def zeroRam : RamStats :=
  { total := 0, available := 0, used := 0, free := 0, percent := 0, cached := none }

/-- A swap snapshot with zero usage. -/
def zeroSwap : SwapStats := { total := 0, used := 0, free := 0, percent := 0 }

/-- A memory snapshot with zero RAM and swap usage. -/
def zeroMemory : MemoryStats := { ram := zeroRam, swap := zeroSwap }

/-- A disk snapshot with no partitions. -/
def zeroDisk : DiskStats := { partitions := [] }

/-- A network snapshot with no interfaces. -/
def zeroNetwork : NetworkStats := { interfaces := [] }

/-- A Reading in which every monitored value is far below every default
threshold. -/
def quietReading : Reading :=
  { timestamp := 0, cpu := zeroCpu, memory := zeroMemory,
    disk := zeroDisk, network := zeroNetwork }

/-- A swap snapshot that is 100 percent full. -/
def fullSwap : SwapStats := { total := 100, used := 100, free := 0, percent := 100 }

/-- A Reading whose only elevated value is swap usage at 100 percent,
twice the default swap threshold of 50. -/
def swapOnlyReading : Reading :=
  { quietReading with memory := { ram := zeroRam, swap := fullSwap } }

/-- A Reading with CPU total at 92 percent, above the default CPU
threshold of 80 and below the 95 escalation cutoff. -/
def cpu92Reading : Reading :=
  { quietReading with cpu := { total := 92, per_core := [92] } }

/-- A Reading with CPU total at 97 percent, above the 95 escalation
cutoff. -/
def cpu97Reading : Reading :=
  { quietReading with cpu := { total := 97, per_core := [97] } }

/-- The one Issue the evaluator returns on `cpu92Reading`. -/
def cpu92Issue : Issue :=
  { type := "CPU"
    severity := "High"
    message := "High CPU usage: 92%"
    details := "Core loads: 92%"
    suggestion := "1. Check CPU-intensive processes with the top command" ++
      "\n2. Consider process optimization or load balancing" ++
      "\n3. Monitor system temperature and throttling" }

/-- The one Issue the evaluator returns on `cpu97Reading`. -/
def cpu97Issue : Issue :=
  { type := "CPU"
    severity := "Critical"
    message := "High CPU usage: 97%"
    details := "Core loads: 97%"
    suggestion := "1. Check CPU-intensive processes with the top command" ++
      "\n2. Consider process optimization or load balancing" ++
      "\n3. Monitor system temperature and throttling" }

/-- A RAM snapshot breaching the default memory threshold with the
cached value unknown (the Python `None`). -/
def crashRam : RamStats := { zeroRam with percent := 80, cached := none }

/-- A memory snapshot whose RAM part triggers the cached `TypeError`. -/
def crashMemory : MemoryStats := { ram := crashRam, swap := zeroSwap }

/-- A Reading breaching both the CPU threshold (total 92) and the memory
threshold (percent 80) with cached unknown: the evaluator raises on it. -/
def crashReading : Reading :=
  { quietReading with
    cpu := { total := 92, per_core := [92] }
    memory := crashMemory }

/-- An interface with very large raw byte counters and computed rates but
no known link speed. -/
def noSpeedIf : NetIfStats :=
  { bytes_sent := 1000000000000000, bytes_recv := 1000000000000000, speed := none,
    rates := some (1000000000000, 1000000000000) }

/-- A Reading whose only interface has huge counters but no link speed. -/
def noSpeedReading : Reading :=
  { quietReading with network := { interfaces := [("eth0", noSpeedIf)] } }

/-- The earlier interface snapshot of the rate scenario: bytes_sent is
1,000,000. -/
def c4prevIf : NetIfStats :=
  { bytes_sent := 1000000, bytes_recv := 0, speed := some 1000, rates := none }

/-- The later interface snapshot of the rate scenario: bytes_sent is
2,048,000. -/
def c4curIf : NetIfStats :=
  { bytes_sent := 2048000, bytes_recv := 0, speed := some 1000, rates := none }

/-- The earlier Reading of the rate scenario, at time 0. -/
def c4prev : Reading :=
  { quietReading with network := { interfaces := [("eth0", c4prevIf)] } }

/-- The later Reading of the rate scenario, 5 seconds later. -/
def c4cur : Reading :=
  { quietReading with
    timestamp := 5
    network := { interfaces := [("eth0", c4curIf)] } }

/-! Helper lemmas shared by the claim theorems. -/

/-- A value produced by the disk branch has category Disk and severity
Critical or High. -/
lemma diskIssueFor_shape (t : Thresholds) (p : PartitionStats) (i : Issue)
    (h : diskIssueFor t p = some i) :
    i.type = "Disk" ∧ (i.severity = "Critical" ∨ i.severity = "High") := by
  unfold diskIssueFor at h
  split_ifs at h with h1 h2
  · cases h
    exact ⟨rfl, Or.inl rfl⟩
  · cases h
    exact ⟨rfl, Or.inr rfl⟩

/-- A value produced by the network branch has category Network and
severity Critical or High. -/
lemma netIssueFor_shape (t : Thresholds) (nic : String) (s : NetIfStats) (i : Issue)
    (h : netIssueFor t nic s = some i) :
    i.type = "Network" ∧ (i.severity = "Critical" ∨ i.severity = "High") := by
  unfold netIssueFor at h
  rcases hr : s.rates with _ | r <;> rw [hr] at h
  · cases h
  · dsimp only at h
    split_ifs at h with h1 h2 h3
    · cases h
      exact ⟨rfl, Or.inl rfl⟩
    · cases h
      exact ⟨rfl, Or.inr rfl⟩

/-- A value produced by the CPU branch has category CPU and severity
Critical or High. -/
lemma cpuIssuesFor_shape (t : Thresholds) (data : Reading) (i : Issue)
    (h : i ∈ cpuIssuesFor t data) :
    i.type = "CPU" ∧ (i.severity = "Critical" ∨ i.severity = "High") := by
  unfold cpuIssuesFor at h
  split_ifs at h with h1 h2
  · rw [List.mem_singleton] at h
    subst h
    exact ⟨rfl, Or.inl rfl⟩
  · rw [List.mem_singleton] at h
    subst h
    exact ⟨rfl, Or.inr rfl⟩
  · simp at h

/-- When the memory branch returns rather than raising, every returned
Issue has category Memory and severity Critical or High. -/
lemma memIssueFor_ok_shape (t : Thresholds) (data : Reading) (mis : List Issue)
    (i : Issue) (hm : memIssueFor t data = Except.ok mis) (h : i ∈ mis) :
    i.type = "Memory" ∧ (i.severity = "Critical" ∨ i.severity = "High") := by
  unfold memIssueFor at hm
  rcases hc : data.memory.ram.cached with _ | c <;> simp only [hc] at hm
  · split_ifs at hm with hp
    injection hm with hm2
    subst hm2
    simp at h
  · split_ifs at hm with hp hs
    · injection hm with hm2
      subst hm2
      rw [List.mem_singleton] at h
      subst h
      exact ⟨rfl, Or.inl rfl⟩
    · injection hm with hm2
      subst hm2
      rw [List.mem_singleton] at h
      subst h
      exact ⟨rfl, Or.inr rfl⟩
    · injection hm with hm2
      subst hm2
      simp at h

/-- Inversion of a successful evaluation: the memory branch returned, and
the result is the four branch outputs appended in source order. -/
lemma analyze_ok_decomp (t : Thresholds) (data : Reading) (issues : List Issue)
    (h : analyze_bottlenecks t data = Except.ok issues) :
    ∃ memIssues, memIssueFor t data = Except.ok memIssues ∧
      issues = cpuIssuesFor t data ++
        (memIssues ++
          (data.disk.partitions.filterMap (diskIssueFor t) ++
           data.network.interfaces.filterMap (fun p => netIssueFor t p.1 p.2))) := by
  unfold analyze_bottlenecks at h
  rcases hm : memIssueFor t data with e | mis <;> simp only [hm] at h
  · cases h
  · injection h with h2
    exact ⟨mis, rfl, h2.symm⟩

/-- Every Issue in a successful evaluation has one of the four emitted
categories, and severity Critical or High. -/
lemma mem_analyze_shape (t : Thresholds) (data : Reading) (issues : List Issue)
    (i : Issue) (hok : analyze_bottlenecks t data = Except.ok issues)
    (h : i ∈ issues) :
    (i.type = "CPU" ∨ i.type = "Memory" ∨ i.type = "Disk" ∨ i.type = "Network") ∧
    (i.severity = "Critical" ∨ i.severity = "High") := by
  obtain ⟨mis, hm, h3⟩ := analyze_ok_decomp t data issues hok
  subst h3
  simp only [List.mem_append] at h
  rcases h with h | h | h | h
  · obtain ⟨ht, hs⟩ := cpuIssuesFor_shape t data i h
    exact ⟨Or.inl ht, hs⟩
  · obtain ⟨ht, hs⟩ := memIssueFor_ok_shape t data mis i hm h
    exact ⟨Or.inr (Or.inl ht), hs⟩
  · rw [List.mem_filterMap] at h
    obtain ⟨p, _, hp⟩ := h
    obtain ⟨ht, hs⟩ := diskIssueFor_shape t p i hp
    exact ⟨Or.inr (Or.inr (Or.inl ht)), hs⟩
  · rw [List.mem_filterMap] at h
    obtain ⟨q, _, hq⟩ := h
    obtain ⟨ht, hs⟩ := netIssueFor_shape t q.1 q.2 i hq
    exact ⟨Or.inr (Or.inr (Or.inr ht)), hs⟩

/-- Disk-branch issues never carry a category other than Disk. -/
lemma filter_diskIssues_ne (t : Thresholds) (ps : List PartitionStats) (s : String)
    (hs : s ≠ "Disk") :
    (ps.filterMap (diskIssueFor t)).filter (fun i => i.type == s) = [] := by
  rw [List.filter_eq_nil_iff]
  intro i hi
  rw [List.mem_filterMap] at hi
  obtain ⟨p, _, hp⟩ := hi
  have ht := (diskIssueFor_shape t p i hp).1
  simp [ht, Ne.symm hs]

/-- Network-branch issues never carry a category other than Network. -/
lemma filter_netIssues_ne (t : Thresholds) (qs : List (String × NetIfStats)) (s : String)
    (hs : s ≠ "Network") :
    (qs.filterMap (fun q => netIssueFor t q.1 q.2)).filter (fun i => i.type == s) = [] := by
  rw [List.filter_eq_nil_iff]
  intro i hi
  rw [List.mem_filterMap] at hi
  obtain ⟨q, _, hq⟩ := hi
  have ht := (netIssueFor_shape t q.1 q.2 i hq).1
  simp [ht, Ne.symm hs]

/-- One buffer-maintenance step keeps the buffer equal to the last `n`
elements of the appended sequence. -/
lemma trimBuffer_step (n : Nat) (rs : List Reading) (r : Reading) :
    trimBuffer n (rs.drop (rs.length - n) ++ [r])
      = (rs ++ [r]).drop ((rs ++ [r]).length - n) := by
  unfold trimBuffer
  simp only [List.length_append, List.length_drop, List.length_cons, List.length_nil,
    Nat.zero_add]
  split_ifs with h
  · have hn : n ≤ rs.length := by omega
    have h1 : rs.length - (rs.length - n) + 1 - n = 1 := by omega
    rw [h1]
    rcases Nat.eq_zero_or_pos n with h0 | h0
    · subst h0
      simp
    · rw [List.drop_append_eq_append_drop, List.drop_append_eq_append_drop,
        List.drop_drop]
      have h2 : rs.length - n + 1 = rs.length + 1 - n := by omega
      have h3 : 1 - (List.drop (rs.length - n) rs).length
          = rs.length + 1 - n - rs.length := by
        simp only [List.length_drop]
        omega
      rw [h2, h3]
  · have hn : rs.length < n := by omega
    have h1 : rs.length - n = 0 := by omega
    have h2 : rs.length + 1 - n = 0 := by omega
    simp [h1, h2]

/-- After any sequence of fully successful iterations, the buffer holds
exactly the last `max_buffer_size` appended Readings: the FIFO bound the
loop maintains when no evaluation raises. -/
lemma runBuffer_eq (rs : List Reading) :
    runBuffer rs = rs.drop (rs.length - max_buffer_size) := by
  induction rs using List.reverseRecOn with
  | nil => simp [runBuffer]
  | append_singleton rs r ih =>
      unfold runBuffer at ih ⊢
      rw [List.foldl_append, List.foldl_cons, List.foldl_nil, ih]
      exact trimBuffer_step max_buffer_size rs r

/-- `collect_data` only rewrites the network field: the memory part of
the produced Reading is the memory part of the fresh snapshot. -/
lemma collect_data_memory (buffer : List Reading) (fresh : Reading) :
    (collect_data buffer fresh).memory = fresh.memory := by
  unfold collect_data
  cases hb : buffer.getLast? with
  | none => rfl
  | some last =>
      dsimp only
      split_ifs <;> rfl

/-- On a Reading breaching the memory threshold with cached unknown, the
evaluator raises the cached `TypeError`. -/
lemma analyze_error_of_cached_none (t : Thresholds) (data : Reading)
    (hp : data.memory.ram.percent > t.memory)
    (hc : data.memory.ram.cached = none) :
    analyze_bottlenecks t data = Except.error cachedNoneError := by
  have hm : memIssueFor t data = Except.error cachedNoneError := by
    unfold memIssueFor
    rw [if_pos hp, hc]
  unfold analyze_bottlenecks
  rw [hm]

/-- Looking up an interface after the rate-derivation pass returns the
fresh entry with both rates filled in from the previous Reading. -/
lemma lookup_computeRates (last : Reading) (interval : ℚ)
    (ifaces : List (String × NetIfStats)) (nic : String) (cur prev : NetIfStats)
    (h1 : ifaces.lookup nic = some cur)
    (h2 : last.network.interfaces.lookup nic = some prev) :
    (computeRates last interval ifaces).lookup nic
      = some { cur with
          rates :=
            some ((cur.bytes_sent - prev.bytes_sent) / interval,
                  (cur.bytes_recv - prev.bytes_recv) / interval) } := by
  induction ifaces with
  | nil => simp [List.lookup] at h1
  | cons p tl ih =>
      by_cases hk : nic = p.1
      · subst hk
        simp only [List.lookup, beq_self_eq_true] at h1
        rw [Option.some_inj] at h1
        subst h1
        simp [computeRates, List.lookup, h2]
      · simp only [List.lookup, beq_eq_false_iff_ne, ne_eq,
          if_neg, hk] at h1
        rw [show ((nic == p.1) = false) from beq_eq_false_iff_ne.mpr hk] at h1
        simp only [computeRates, List.map_cons]
        rcases hm : last.network.interfaces.lookup p.1 with _ | pv <;>
          · simp only [hm, List.lookup,
              show ((nic == p.1) = false) from beq_eq_false_iff_ne.mpr hk]
            exact ih h1

/-! The claim theorems. -/

/-- C1 (amended): `analyze_bottlenecks` contains no swap check at all:
whenever the evaluation returns, every returned Issue has category CPU,
Memory, Disk or Network, so no Issue for the swap category is ever
emitted — for any Reading and any thresholds, even when `swap.percent`
exceeds `thresholds.swap` (and an evaluation that raises emits nothing
at all). -/
theorem C1_no_swap_issue (t : Thresholds) (data : Reading) (issues : List Issue)
    (h : analyze_bottlenecks t data = Except.ok issues) :
    issues.all
      (fun i => i.type == "CPU" || i.type == "Memory" ||
                i.type == "Disk" || i.type == "Network") = true := by
  rw [List.all_eq_true]
  intro i hi
  rcases (mem_analyze_shape t data issues i h hi).1 with h1 | h1 | h1 | h1 <;> simp [h1]

/-- C1 witness: the theorem applied to the Reading with CPU at 92, whose
evaluation returns exactly the one CPU Issue. -/
theorem C1_witness :
    ([cpu92Issue] : List Issue).all
      (fun i => i.type == "CPU" || i.type == "Memory" ||
                i.type == "Disk" || i.type == "Network") = true :=
  C1_no_swap_issue defaultThresholds cpu92Reading [cpu92Issue] (by decide)

/-- C1 counterexample: a Reading whose swap usage is 100 percent, well
above the default swap threshold of 50, produces no Issue at all from
`analyze_bottlenecks`, refuting the claim that a High swap Issue is
emitted. -/
theorem C1_counterexample :
    swapOnlyReading.memory.swap.percent > defaultThresholds.swap ∧
    analyze_bottlenecks defaultThresholds swapOnlyReading = Except.ok [] := by
  constructor
  · decide
  · decide

/-- C2 (amended): when the disk subsystem getter raises, the whole
`collect_data` call raises, the loop iteration catches the error, and
the tick ends with the history buffer unchanged and no Issues emitted
for that tick, whatever the other getters returned. -/
theorem C2_subsystem_failure_skips_tick (t : Thresholds) (buf : List Reading)
    (timestamp : ℚ) (cpuRes : Except String CpuStats)
    (memRes : Except String MemoryStats) (netRes : Except String NetworkStats)
    (e : String) :
    monitor_step t buf timestamp cpuRes memRes (Except.error e) netRes = (buf, []) := by
  cases cpuRes <;> cases memRes <;> rfl

/-- C2 counterexample: with the disk getter failing and every other
getter succeeding, `collect_data` raises, so no Reading is produced
and the monitoring iteration keeps the buffer unchanged with no issues,
refuting the claim that a Reading with absent disk fields is produced
and the other categories evaluated. -/
theorem C2_counterexample :
    collect_dataE [] 0 (Except.ok zeroCpu) (Except.ok zeroMemory)
      (Except.error "disk unavailable") (Except.ok zeroNetwork)
      = Except.error "disk unavailable" ∧
    monitor_step defaultThresholds [] 0 (Except.ok zeroCpu) (Except.ok zeroMemory)
      (Except.error "disk unavailable") (Except.ok zeroNetwork) = ([], []) :=
  ⟨rfl, rfl⟩

/-- C3 (amended): a threshold-override mapping containing only unknown
category keys leaves the thresholds completely unchanged: the unknown
keys are silently skipped and never applied, and the update operation
has no error outcome. -/
theorem C3_unknown_keys_ignored (t : Thresholds) (kwargs : List (String × ℚ))
    (h : ∀ kv ∈ kwargs,
      kv.1 ∉ (["cpu", "memory", "disk", "swap", "network"] : List String)) :
    set_thresholds t kwargs = t := by
  induction kwargs generalizing t with
  | nil => rfl
  | cons kv tl ih =>
      have hk := h kv (List.mem_cons_self kv tl)
      simp only [List.mem_cons, List.mem_singleton, List.not_mem_nil] at hk
      push_neg at hk
      obtain ⟨h1, h2, h3, h4, h5⟩ := hk
      unfold set_thresholds
      rw [List.foldl_cons]
      simp only [h1, h2, h3, h4, h5, if_false]
      exact ih t (fun q hq => h q (List.mem_cons_of_mem kv hq))

/-- C3 counterexample: passing the unknown key gpu to the threshold
update returns the default thresholds unchanged and reports no error,
refuting the claim that unknown keys are rejected with a configuration
error. -/
theorem C3_counterexample :
    set_thresholds defaultThresholds [("gpu", 50)] = defaultThresholds := by
  decide

/-- C3 witness: the amended theorem applied to a concrete mapping whose
keys gpu and temperature are both unknown. -/
theorem C3_witness :
    set_thresholds defaultThresholds [("gpu", 50), ("temperature", 10)]
      = defaultThresholds :=
  C3_unknown_keys_ignored defaultThresholds [("gpu", 50), ("temperature", 10)]
    (by decide)

/-- C4 (amended): for two consecutive Readings with positive elapsed
time, the per-interface send and receive rates equal the counter deltas
divided by the elapsed seconds.  For the concrete 5-second scenario the
resulting send rate is 209,600 bytes/sec, not 209,715.2. -/
theorem C4_rate_formula (buffer : List Reading) (last fresh : Reading)
    (nic : String) (cur prev : NetIfStats)
    (hlast : buffer.getLast? = some last)
    (hpos : fresh.timestamp - last.timestamp > 0)
    (hcur : fresh.network.interfaces.lookup nic = some cur)
    (hprev : last.network.interfaces.lookup nic = some prev) :
    (collect_data buffer fresh).network.interfaces.lookup nic
      = some { cur with
          rates :=
            some ((cur.bytes_sent - prev.bytes_sent) / (fresh.timestamp - last.timestamp),
                  (cur.bytes_recv - prev.bytes_recv) / (fresh.timestamp - last.timestamp)) } := by
  unfold collect_data
  rw [hlast]
  simp only [if_pos hpos]
  exact lookup_computeRates last (fresh.timestamp - last.timestamp)
    fresh.network.interfaces nic cur prev hcur hprev

/-- C4 counterexample: for two Readings 5 seconds apart with bytes_sent
going from 1,000,000 to 2,048,000, the computed send rate is 209,600
bytes/sec, which differs from the 209,715.2 the claim asserts. -/
theorem C4_counterexample :
    ((collect_data [c4prev] c4cur).network.interfaces.lookup "eth0").bind
        (fun s => s.rates) = some (209600, 0) ∧
    (209600 : ℚ) ≠ 2097152 / 10 := by
  constructor
  · simp [collect_data, computeRates, c4prev, c4cur, c4prevIf, c4curIf,
      quietReading, List.lookup]
    norm_num
  · norm_num

/-- C4 witness: the amended rate formula applied to the concrete
5-second scenario. -/
theorem C4_witness :
    (collect_data [c4prev] c4cur).network.interfaces.lookup "eth0"
      = some { c4curIf with
          rates :=
            some ((c4curIf.bytes_sent - c4prevIf.bytes_sent) / (c4cur.timestamp - c4prev.timestamp),
                  (c4curIf.bytes_recv - c4prevIf.bytes_recv) / (c4cur.timestamp - c4prev.timestamp)) } :=
  C4_rate_formula [c4prev] c4prev c4cur "eth0" c4curIf c4prevIf rfl
    (by norm_num [c4cur, c4prev, quietReading]) (by decide) (by decide)

/-- C5 (code bug): on a Reading breaching the CPU threshold (total 92
over 80) that also breaches the memory threshold (percent 80 over 75)
with cached unknown, the evaluator raises the cached `TypeError` and
emits no CPU Issue at all, contradicting the claim that exactly one CPU
Issue is emitted; the dead `0` default in `mem.get('cached', 0)` shows
the crash is a slip, not intent. -/
theorem C5_crash_no_cpu_issue :
    crashReading.cpu.total > defaultThresholds.cpu ∧
    crashReading.memory.ram.percent > defaultThresholds.memory ∧
    crashReading.memory.ram.cached = none ∧
    analyze_bottlenecks defaultThresholds crashReading
      = Except.error cachedNoneError := by
  refine ⟨by decide, by decide, by decide, by decide⟩

/-- C6 (code bug): an iteration whose collection succeeds but whose
evaluation raises the cached `TypeError` has already appended the
Reading and skips the trim, so starting from a buffer already at the
720 maximum the iteration ends with 721 retained entries, exceeding the
bound the claim states for every iteration. -/
theorem C6_buffer_exceeds_bound :
    ((monitor_step defaultThresholds (List.replicate 720 quietReading) 5
        (Except.ok zeroCpu) (Except.ok crashMemory) (Except.ok zeroDisk)
        (Except.ok zeroNetwork)).1).length = 721 ∧
    max_buffer_size < 721 := by
  constructor
  · have hcd : collect_dataE (List.replicate 720 quietReading) 5 (Except.ok zeroCpu)
        (Except.ok crashMemory) (Except.ok zeroDisk) (Except.ok zeroNetwork)
        = Except.ok (collect_data (List.replicate 720 quietReading)
            { timestamp := 5, cpu := zeroCpu, memory := crashMemory,
              disk := zeroDisk, network := zeroNetwork }) := rfl
    have hmm : (collect_data (List.replicate 720 quietReading)
        { timestamp := 5, cpu := zeroCpu, memory := crashMemory,
          disk := zeroDisk, network := zeroNetwork }).memory = crashMemory :=
      collect_data_memory _ _
    have herr := analyze_error_of_cached_none defaultThresholds
      (collect_data (List.replicate 720 quietReading)
        { timestamp := 5, cpu := zeroCpu, memory := crashMemory,
          disk := zeroDisk, network := zeroNetwork })
      (by rw [hmm]; decide) (by rw [hmm]; decide)
    unfold monitor_step
    rw [hcd]
    dsimp only
    rw [herr]
    dsimp only
    rw [List.length_append, List.length_replicate, List.length_singleton]
  · decide

/-- C7: an interface of a Reading that lacks computed rates or lacks a
known link speed contributes no Issue — its per-interface check returns
none — and whenever the evaluation returns, its Network Issues are
exactly the per-interface results, so no Network Issue arises for that
interface however large its raw byte counters are. -/
theorem C7_interface_skipped (t : Thresholds) (data : Reading)
    (nic : String) (stats : NetIfStats)
    (_hmem : (nic, stats) ∈ data.network.interfaces)
    (h : stats.rates = none ∨ stats.speed = none) :
    netIssueFor t nic stats = none ∧
    ∀ issues, analyze_bottlenecks t data = Except.ok issues →
      issues.filter (fun i => i.type == "Network")
        = data.network.interfaces.filterMap (fun q => netIssueFor t q.1 q.2) := by
  constructor
  · rcases h with h | h
    · simp [netIssueFor, h]
    · cases hr : stats.rates with
      | none => simp [netIssueFor, hr]
      | some r => simp [netIssueFor, hr, speedTruthy, h]
  · intro issues hok
    obtain ⟨mis, hm, h3⟩ := analyze_ok_decomp t data issues hok
    subst h3
    simp only [List.filter_append]
    have hcpu : (cpuIssuesFor t data).filter (fun i => i.type == "Network") = [] := by
      rw [List.filter_eq_nil_iff]
      intro i hi
      have ht := (cpuIssuesFor_shape t data i hi).1
      simp [ht]
    have hmemf : mis.filter (fun i => i.type == "Network") = [] := by
      rw [List.filter_eq_nil_iff]
      intro i hi
      have ht := (memIssueFor_ok_shape t data mis i hm hi).1
      simp [ht]
    rw [hcpu, hmemf, filter_diskIssues_ne t _ _ (by decide)]
    simp only [List.nil_append]
    rw [List.filter_eq_self]
    intro i hi
    rw [List.mem_filterMap] at hi
    obtain ⟨q, _, hq⟩ := hi
    have ht := (netIssueFor_shape t q.1 q.2 i hq).1
    simp [ht]

/-- C7 witness: the theorem applied to a Reading whose only interface
has byte counters of a quadrillion bytes and large rates but no known
link speed: its per-interface check returns none. -/
theorem C7_witness :
    netIssueFor defaultThresholds "eth0" noSpeedIf = none ∧
    ∀ issues, analyze_bottlenecks defaultThresholds noSpeedReading = Except.ok issues →
      issues.filter (fun i => i.type == "Network")
        = noSpeedReading.network.interfaces.filterMap
            (fun q => netIssueFor defaultThresholds q.1 q.2) :=
  C7_interface_skipped defaultThresholds noSpeedReading "eth0" noSpeedIf
    (by decide) (Or.inr rfl)

/-- C8 (code bug): report generation re-runs the evaluator over the
retained buffer, so a history containing one Reading that breaches the
memory threshold with cached unknown makes the whole analysis raise the
cached `TypeError`: no analysis list — and no report — is produced,
contradicting the claim of one entry per retained Reading. -/
theorem C8_report_crash :
    generate_report_analysis defaultThresholds [crashReading]
      = Except.error cachedNoneError := by
  decide

/-- C9: for a Reading in which no category value exceeds its configured
threshold — CPU total, RAM percent, swap percent, every partition
percent, and the utilization of every interface for which it is
defined — the evaluator returns the empty list (and in particular does
not raise: the cached `TypeError` needs a memory breach). -/
theorem C9_no_breach_empty (t : Thresholds) (data : Reading)
    (hcpu : data.cpu.total ≤ t.cpu)
    (hmem : data.memory.ram.percent ≤ t.memory)
    (_hswap : data.memory.swap.percent ≤ t.swap)
    (hdisk : ∀ p ∈ data.disk.partitions, p.percent ≤ t.disk)
    (hnet : ∀ q ∈ data.network.interfaces, ∀ r, q.2.rates = some r →
        speedTruthy q.2.speed = true → netUtilization q.2 r.1 r.2 ≤ t.network) :
    analyze_bottlenecks t data = Except.ok [] := by
  have hm : memIssueFor t data = Except.ok [] := by
    unfold memIssueFor
    rw [if_neg (not_lt.mpr hmem)]
  have hc : cpuIssuesFor t data = [] := by
    unfold cpuIssuesFor
    rw [if_neg (not_lt.mpr hcpu)]
  have hd : data.disk.partitions.filterMap (diskIssueFor t) = [] := by
    rw [List.filterMap_eq_nil_iff]
    intro p hp
    unfold diskIssueFor
    rw [if_neg (not_lt.mpr (hdisk p hp))]
  have hn : data.network.interfaces.filterMap (fun p => netIssueFor t p.1 p.2) = [] := by
    rw [List.filterMap_eq_nil_iff]
    intro q hq
    cases hr : q.2.rates with
    | none => simp [netIssueFor, hr]
    | some r =>
        by_cases hs : speedTruthy q.2.speed = true
        · simp only [netIssueFor, hr, hs, if_true]
          rw [if_neg (not_lt.mpr (hnet q hq r hr hs))]
        · simp [netIssueFor, hr, hs]
  unfold analyze_bottlenecks
  rw [hm, hc, hd, hn]
  rfl

/-- C9 witness: the theorem applied to the all-quiet Reading under the
default thresholds: the evaluation returns the empty list. -/
theorem C9_witness :
    analyze_bottlenecks defaultThresholds quietReading = Except.ok [] :=
  C9_no_breach_empty defaultThresholds quietReading (by decide) (by decide)
    (by decide) (by decide)
    (fun q hq => absurd hq (List.not_mem_nil q))

/-- C10: whenever the evaluation returns, every returned Issue has
severity High or Critical; the severity Normal is never emitted, for
any Reading and any thresholds (an evaluation that raises emits nothing
at all). -/
theorem C10_severity_high_or_critical (t : Thresholds) (data : Reading)
    (issues : List Issue)
    (h : analyze_bottlenecks t data = Except.ok issues) :
    issues.all (fun i => i.severity == "High" || i.severity == "Critical") = true := by
  rw [List.all_eq_true]
  intro i hi
  rcases (mem_analyze_shape t data issues i h hi).2 with h1 | h1 <;> simp [h1]

/-- C10 witness: the theorem applied to the Reading with CPU at 97,
whose evaluation returns exactly the one Critical CPU Issue. -/
theorem C10_witness :
    ([cpu97Issue] : List Issue).all
      (fun i => i.severity == "High" || i.severity == "Critical") = true :=
  C10_severity_high_or_critical defaultThresholds cpu97Reading [cpu97Issue] (by decide)

end SystemMonitor
